import Mathlib

/-! Verification of `mopidy_alsamixer/mixer.py` (class `AlsaMixer`): a shallow
embedding of the volume-scale conversions, the volume/mute getters and
setters, the construction-time configuration check and the
diff-and-notify reconciliation step, together with theorems about them.

Python floats are modelled as real numbers; `int(x)` is truncation toward
zero; a device call that raises `alsaaudio.ALSAAudioError` is modelled by a
`none`/`Bool` parameter at the point the source catches (or fails to catch)
the exception. -/

namespace AlsaMixer

/-- The configured `volume_scale`: `"linear"`, `"cubic"` or `"log"`. -/
inductive VolumeScale
  | linear
  | cubic
  | log
deriving DecidableEq

/-- The configuration values `min_volume`, `max_volume`, `volume_scale`
read by `AlsaMixer.__init__` and used by the conversion functions. -/
structure Calibration where
  min_volume : ℝ
  max_volume : ℝ
  volume_scale : VolumeScale

/-- Python `int(x)` applied to a float: truncation toward zero. -/
noncomputable def truncToZero (x : ℝ) : ℤ :=
  if 0 ≤ x then ⌊x⌋ else ⌈x⌉

/-- The real cube root, as computed by C `cbrt` (odd extension of `x^(1/3)`). -/
noncomputable def realCbrt (x : ℝ) : ℝ :=
  if 0 ≤ x then x ^ ((1 : ℝ) / 3) else -((-x) ^ ((1 : ℝ) / 3))

/-- `GstAudio.StreamVolume.convert_volume` from `CUBIC` to `LINEAR`:
cubes its argument. -/
def cubicToLinear (x : ℝ) : ℝ := x * x * x

/-- `GstAudio.StreamVolume.convert_volume` from `LINEAR` to `CUBIC`:
the cube root. -/
noncomputable def linearToCubic (x : ℝ) : ℝ := realCbrt x

/-- The per-scale transform applied to `volume` inside
`AlsaMixer.mixer_volume_to_volume`: identity for linear,
`convert_volume(CUBIC, LINEAR, v/100)*100` for cubic, `10 ** (v/50)`
(`math.pow(10, volume / 50.0)`) for log. -/
noncomputable def scaleToLinear : VolumeScale → ℝ → ℝ
  | .linear, v => v
  | .cubic, v => cubicToLinear (v / 100) * 100
  | .log, v => (10 : ℝ) ^ (v / 50)

/-- `AlsaMixer.mixer_volume_to_volume`: scale transform, then
`(volume - min_volume) * 100.0 / (max_volume - min_volume)`, then `int(...)`. -/
noncomputable def mixer_volume_to_volume (cal : Calibration) (mixer_volume : ℤ) : ℤ :=
  truncToZero ((scaleToLinear cal.volume_scale (mixer_volume : ℝ) - cal.min_volume) * 100 /
    (cal.max_volume - cal.min_volume))

/-- The intermediate value computed first by `AlsaMixer.volume_to_mixer_volume`:
`min_volume + volume * (max_volume - min_volume) / 100.0`. -/
noncomputable def mixerIntermediate (cal : Calibration) (volume : ℤ) : ℝ :=
  cal.min_volume + (volume : ℝ) * (cal.max_volume - cal.min_volume) / 100

/-- `AlsaMixer.volume_to_mixer_volume`: the intermediate affine value, then the
per-scale transform, then `int(...)`. In the log branch the source calls
`math.log10(mixer_volume)`, which raises an uncaught `ValueError` when its
argument is `<= 0`; that exception is modelled by `none`. -/
noncomputable def volume_to_mixer_volume (cal : Calibration) (volume : ℤ) : Option ℤ :=
  match cal.volume_scale with
  | .linear => some (truncToZero (mixerIntermediate cal volume))
  | .cubic => some (truncToZero (linearToCubic (mixerIntermediate cal volume / 100) * 100))
  | .log =>
      if mixerIntermediate cal volume ≤ 0 then none
      else some (truncToZero (50 * Real.logb 10 (mixerIntermediate cal volume)))

/-- The Observed State held by the controller: `_last_volume` and `_last_mute`. -/
structure ObservedState where
  last_volume : Option ℤ
  last_mute : Option Bool
deriving DecidableEq

/-- `AlsaMixer.get_volume`, parameterized by the device read
`self._mixer.getvolume()`: `none` models the call raising
`alsaaudio.ALSAAudioError` (device unavailable), `some channels` a
successful read of the per-channel volumes. -/
noncomputable def get_volume (cal : Calibration) (read : Option (List ℤ)) : Option ℤ :=
  match read with
  | none => none
  | some [] => none
  | some (c :: cs) =>
      if (c :: cs).count c = (c :: cs).length then some (mixer_volume_to_volume cal c)
      else none

/-- `AlsaMixer.get_mute`, parameterized by the device read
`self._mixer.getmute()`: `none` models `alsaaudio.ALSAAudioError`,
`some channels_muted` a successful read of the per-channel mute flags. -/
def get_mute (read : Option (List Bool)) : Option Bool :=
  match read with
  | none => none
  | some channels_muted =>
      if channels_muted.all (fun b => b) then some true
      else if !(channels_muted.any (fun b => b)) then some false
      else none

/-- Outcome of one setter call: the boolean the method returns, the raw value
written to the device (if a write happened), and the Observed State afterwards
(the setters never touch `_last_volume`/`_last_mute`). -/
structure SetResult where
  returned : Bool
  written : Option ℤ
  state : ObservedState
deriving DecidableEq

/-- `AlsaMixer.set_volume`. `openOk` models `self._mixer` (opening the fresh
device handle) succeeding, `writeOk` the `setvolume` call succeeding; both
failures raise `alsaaudio.ALSAAudioError`, which the source catches and turns
into a `False` return. The argument `volume_to_mixer_volume(volume)` is
evaluated after the handle is opened and before the write; the `ValueError` it
can raise is not caught, modelled by `none`. -/
noncomputable def set_volume (cal : Calibration) (openOk writeOk : Bool)
    (s : ObservedState) (volume : ℤ) : Option SetResult :=
  if openOk = false then some ⟨false, none, s⟩
  else
    match volume_to_mixer_volume cal volume with
    | none => none
    | some mv => if writeOk then some ⟨true, some mv, s⟩ else some ⟨false, none, s⟩

/-- `AlsaMixer.set_mute`: writes `int(mute)`; `alsaaudio.ALSAAudioError` from
opening the handle or from `setmute` is caught and becomes a `False` return. -/
def set_mute (openOk writeOk : Bool) (s : ObservedState) (mute : Bool) : SetResult :=
  if openOk && writeOk then ⟨true, some (if mute then 1 else 0), s⟩
  else ⟨false, none, s⟩

/-- A change notification fired at the host:
`trigger_volume_changed` or `trigger_mute_changed`. -/
inductive MixerEvent
  | volumeChanged (volume : Option ℤ)
  | muteChanged (mute : Option Bool)
deriving DecidableEq

/-- Whether an event is a volume-changed notification. -/
def isVolumeEvent : MixerEvent → Bool
  | .volumeChanged _ => true
  | .muteChanged _ => false

/-- Whether an event is a mute-changed notification. -/
def isMuteEvent : MixerEvent → Bool
  | .volumeChanged _ => false
  | .muteChanged _ => true

/-- `AlsaMixer.trigger_events_for_changed_values`, parameterized by the values
`get_volume()` and `get_mute()` return on this call: swaps the freshly read
values into `_last_volume`/`_last_mute`, then fires `trigger_volume_changed`
with the new volume when the old one differs, then `trigger_mute_changed`
with the new mute state when the old one differs. -/
def trigger_events_for_changed_values (s : ObservedState)
    (new_volume : Option ℤ) (new_mute : Option Bool) : ObservedState × List MixerEvent :=
  (⟨new_volume, new_mute⟩,
    (if s.last_volume ≠ new_volume then [MixerEvent.volumeChanged new_volume] else []) ++
    (if s.last_mute ≠ new_mute then [MixerEvent.muteChanged new_mute] else []))

/-- Result of `AlsaMixer.__init__`: a raised `mopidy.exceptions.MixerError`
(the spec's `ConfigurationError`) carrying its diagnostic list, or a
successfully constructed controller with its initial Observed State. -/
inductive InitResult
  | configError (diagnostics : List String)
  | ok (initialState : ObservedState)
deriving DecidableEq

/-- `AlsaMixer.__init__`, parameterized by `alsaaudio.cards()` and by the
result of `alsaaudio.mixers(...)`: `none` models that call raising
`alsaaudio.ALSAAudioError` (the configured card selector does not resolve),
`some known_controls` the list of controls on the resolved device. On the
unresolved selector the raised error message carries the known cards; on a
control not among `known_controls` it carries the known controls; otherwise
construction succeeds with `_last_volume = None` and `_last_mute = None`. -/
def alsaMixer_init (control : String) (known_cards : List String)
    (mixers_result : Option (List String)) : InitResult :=
  match mixers_result with
  | none => .configError known_cards
  | some known_controls =>
      if control ∈ known_controls then .ok ⟨none, none⟩
      else .configError known_controls

/-- Written from the spec text for the Logarithmic `toHostVolume`:
first `v = 10^(v/50)`, then `(v - min_volume) * 100 / (max_volume -
min_volume)`, truncated toward zero. Used to compare the source's log
branch against the spec's literal formula. -/
noncomputable def spec_log_toHostVolume (cal : Calibration) (v : ℤ) : ℤ :=
  truncToZero (((10 : ℝ) ^ ((v : ℝ) / 50) - cal.min_volume) * 100 /
    (cal.max_volume - cal.min_volume))

/-- Written from the spec text for the Logarithmic `toMixerVolume`:
first `v = min_volume + percent * (max_volume - min_volume) / 100`, then
`50 * log10(v)`, truncated toward zero. -/
noncomputable def spec_log_toMixerVolume (cal : Calibration) (percent : ℤ) : ℤ :=
  truncToZero (50 * Real.logb 10
    (cal.min_volume + (percent : ℝ) * (cal.max_volume - cal.min_volume) / 100))

/-- Truncation toward zero of an integer value is that integer. -/
theorem truncToZero_intCast (z : ℤ) : truncToZero (z : ℝ) = z := by
  unfold truncToZero
  split
  · exact Int.floor_intCast z
  · exact Int.ceil_intCast z

/-- Truncation toward zero is monotone. -/
theorem truncToZero_mono {x y : ℝ} (h : x ≤ y) : truncToZero x ≤ truncToZero y := by
  unfold truncToZero
  by_cases hx : 0 ≤ x <;> by_cases hy : 0 ≤ y
  · rw [if_pos hx, if_pos hy]
    exact Int.floor_mono h
  · exact absurd (hx.trans h) hy
  · rw [if_neg hx, if_pos hy]
    have h1 : ⌈x⌉ ≤ 0 := Int.ceil_le.mpr (by push_cast; linarith [le_of_not_le hx])
    have h2 : (0 : ℤ) ≤ ⌊y⌋ := Int.le_floor.mpr (by push_cast; exact hy)
    omega
  · rw [if_neg hx, if_neg hy]
    exact Int.ceil_mono h

/-- Unfolding of `mixer_volume_to_volume` at a cubic-scale calibration. -/
theorem mixer_volume_to_volume_cubic (mn mx : ℝ) (m : ℤ) :
    mixer_volume_to_volume ⟨mn, mx, .cubic⟩ m =
      truncToZero ((cubicToLinear ((m : ℝ) / 100) * 100 - mn) * 100 / (mx - mn)) := rfl

/-- Unfolding of `volume_to_mixer_volume` at a cubic-scale calibration. -/
theorem volume_to_mixer_volume_cubic (mn mx : ℝ) (p : ℤ) :
    volume_to_mixer_volume ⟨mn, mx, .cubic⟩ p =
      some (truncToZero (linearToCubic ((mn + (p : ℝ) * (mx - mn) / 100) / 100) * 100)) := rfl

/-- Unfolding of `volume_to_mixer_volume` at a linear-scale calibration. -/
theorem volume_to_mixer_volume_linear_def (mn mx : ℝ) (p : ℤ) :
    volume_to_mixer_volume ⟨mn, mx, .linear⟩ p =
      some (truncToZero (mn + (p : ℝ) * (mx - mn) / 100)) := rfl

/-- Unfolding of `volume_to_mixer_volume` at a log-scale calibration. -/
theorem volume_to_mixer_volume_log_def (mn mx : ℝ) (p : ℤ) :
    volume_to_mixer_volume ⟨mn, mx, .log⟩ p =
      if mn + (p : ℝ) * (mx - mn) / 100 ≤ 0 then none
      else some (truncToZero (50 * Real.logb 10 (mn + (p : ℝ) * (mx - mn) / 100))) := rfl

/-- C2: one reconciliation call replaces both stored fields with the freshly
read values and, independently per field, emits exactly one change
notification carrying the new value if and only if the old stored value
differs from the new one; at most one notification per field per call. -/
theorem trigger_events_spec (s : ObservedState) (nv : Option ℤ) (nm : Option Bool) :
    (trigger_events_for_changed_values s nv nm).1 = ⟨nv, nm⟩ ∧
    (∀ v, MixerEvent.volumeChanged v ∈ (trigger_events_for_changed_values s nv nm).2 ↔
      s.last_volume ≠ nv ∧ v = nv) ∧
    (∀ m, MixerEvent.muteChanged m ∈ (trigger_events_for_changed_values s nv nm).2 ↔
      s.last_mute ≠ nm ∧ m = nm) ∧
    ((trigger_events_for_changed_values s nv nm).2.countP isVolumeEvent =
      if s.last_volume ≠ nv then 1 else 0) ∧
    ((trigger_events_for_changed_values s nv nm).2.countP isMuteEvent =
      if s.last_mute ≠ nm then 1 else 0) := by
  unfold trigger_events_for_changed_values
  by_cases h1 : s.last_volume = nv <;> by_cases h2 : s.last_mute = nm <;>
    simp [h1, h2, isVolumeEvent, isMuteEvent, List.countP_cons, eq_comm]

/-- C3: `get_volume` returns `None` on a failed device read, on an empty
channel list, or when the channels disagree; otherwise it returns the
Volume Mapper conversion of the common channel value. In particular
`[50, 50, 50]` maps to the conversion of `50` and `[50, 60]` to `None`. -/
theorem get_volume_spec (cal : Calibration) :
    get_volume cal none = none ∧
    get_volume cal (some []) = none ∧
    (∀ (c : ℤ) (cs : List ℤ), (∀ x ∈ cs, x = c) →
      get_volume cal (some (c :: cs)) = some (mixer_volume_to_volume cal c)) ∧
    (∀ l : List ℤ, (∃ x ∈ l, ∃ y ∈ l, x ≠ y) → get_volume cal (some l) = none) ∧
    get_volume cal (some [50, 50, 50]) = some (mixer_volume_to_volume cal 50) ∧
    get_volume cal (some [50, 60]) = none := by
  refine ⟨rfl, rfl, ?_, ?_, ?_, ?_⟩
  · intro c cs h
    have hcount : (c :: cs).count c = (c :: cs).length := by
      refine List.count_eq_length.mpr ?_
      intro b hb
      rcases List.mem_cons.mp hb with hb | hb
      · exact hb.symm
      · exact (h b hb).symm
    simp [get_volume, hcount]
  · intro l hl
    obtain ⟨x, hx, y, hy, hxy⟩ := hl
    match l with
    | [] => simp at hx
    | c :: cs =>
      have hcount : ¬ (c :: cs).count c = (c :: cs).length := by
        intro hcount
        have hall := List.count_eq_length.mp hcount
        exact hxy ((hall x hx).symm.trans (hall y hy))
      simp only [get_volume]
      rw [if_neg hcount]
  · have hcount : ([50, 50, 50] : List ℤ).count 50 = ([50, 50, 50] : List ℤ).length := by
      decide
    simp [get_volume, hcount]
  · have hcount : ¬ ([50, 60] : List ℤ).count 50 = ([50, 60] : List ℤ).length := by
      decide
    simp [get_volume, hcount]

/-- C4, counterexample: with an empty channel list, "no channel is muted"
holds vacuously, yet `get_mute` returns `True`, not `False`. -/
theorem get_mute_empty_counterexample :
    (∀ b ∈ ([] : List Bool), b = false) ∧
    get_mute (some []) = some true ∧
    get_mute (some []) ≠ some false := by
  refine ⟨?_, ?_, ?_⟩ <;> simp [get_mute]

/-- C4, amended: `get_mute` returns `True` when every channel is muted
(vacuously so for zero channels), `False` when there is at least one channel
and none is muted, and `None` when the states are mixed or the device read
fails; in particular `True` for `[true, true]`, `None` for `[true, false]`
and `False` for `[false, false]`. -/
theorem get_mute_spec :
    get_mute none = none ∧
    (∀ l : List Bool, (∀ b ∈ l, b = true) → get_mute (some l) = some true) ∧
    (∀ l : List Bool, l ≠ [] → (∀ b ∈ l, b = false) → get_mute (some l) = some false) ∧
    (∀ l : List Bool, true ∈ l → false ∈ l → get_mute (some l) = none) ∧
    get_mute (some [true, true]) = some true ∧
    get_mute (some [true, false]) = none ∧
    get_mute (some [false, false]) = some false := by
  refine ⟨rfl, ?_, ?_, ?_, by decide, by decide, by decide⟩
  · intro l h
    have hall : l.all (fun b => b) = true := List.all_eq_true.mpr h
    simp [get_mute, hall]
  · intro l hne h
    match l with
    | [] => exact absurd rfl hne
    | c :: cs =>
      have hall : ¬ (c :: cs).all (fun b => b) = true := by
        simp only [List.all_eq_true]
        intro hcontra
        have := hcontra c (List.mem_cons_self c cs)
        rw [h c (List.mem_cons_self c cs)] at this
        exact Bool.false_ne_true this
      have hany : (c :: cs).any (fun b => b) = false := by
        simp only [Bool.eq_false_iff, ne_eq, List.any_eq_true]
        rintro ⟨b, hb, hbt⟩
        rw [h b hb] at hbt
        exact Bool.false_ne_true hbt
      simp [get_mute, hall, hany]
  · intro l htrue hfalse
    have hall : ¬ l.all (fun b => b) = true := by
      simp only [List.all_eq_true]
      intro hcontra
      exact Bool.false_ne_true (hcontra false hfalse)
    have hany : l.any (fun b => b) = true := List.any_eq_true.mpr ⟨true, htrue, rfl⟩
    simp [get_mute, hall, hany]

/-- C5: when the device write fails with a caught device error, `set_volume`
and `set_mute` return `False` without propagating an exception; on success
they return `True`; `set_volume` writes the Volume-Mapper-converted value;
and neither setter modifies the stored Observed State. -/
theorem set_ops_spec (cal : Calibration) (s : ObservedState) (v : ℤ) (m : Bool) :
    (∀ writeOk, set_volume cal false writeOk s v = some ⟨false, none, s⟩) ∧
    (∀ mv, volume_to_mixer_volume cal v = some mv →
      set_volume cal true false s v = some ⟨false, none, s⟩ ∧
      set_volume cal true true s v = some ⟨true, some mv, s⟩) ∧
    (∀ openOk writeOk r, set_volume cal openOk writeOk s v = some r → r.state = s) ∧
    (∀ openOk writeOk, (openOk && writeOk) = false →
      (set_mute openOk writeOk s m).returned = false) ∧
    (set_mute true true s m).returned = true ∧
    (set_mute true true s m).written = some (if m then 1 else 0) ∧
    (∀ openOk writeOk, (set_mute openOk writeOk s m).state = s) := by
  refine ⟨?_, ?_, ?_, ?_, rfl, rfl, ?_⟩
  · intro writeOk
    simp [set_volume]
  · intro mv hmv
    exact ⟨by simp [set_volume, hmv], by simp [set_volume, hmv]⟩
  · intro openOk writeOk r hr
    unfold set_volume at hr
    split at hr
    · injection hr with h
      rw [← h]
    · split at hr
      · exact Option.noConfusion hr
      · split at hr
        · injection hr with h
          rw [← h]
        · injection hr with h
          rw [← h]
  · intro openOk writeOk h
    simp [set_mute, h]
  · intro openOk writeOk
    unfold set_mute
    split <;> rfl

/-- C9: construction fails with a configuration error carrying the known
cards exactly when the card selector does not resolve, fails with one
carrying the known controls exactly when the control is not among them,
and otherwise succeeds with both Observed State fields `None`. -/
theorem init_spec (control : String) (known_cards : List String)
    (mixers_result : Option (List String)) :
    (mixers_result = none →
      alsaMixer_init control known_cards mixers_result = .configError known_cards) ∧
    (∀ known_controls, mixers_result = some known_controls → control ∉ known_controls →
      alsaMixer_init control known_cards mixers_result = .configError known_controls) ∧
    (∀ known_controls, mixers_result = some known_controls → control ∈ known_controls →
      alsaMixer_init control known_cards mixers_result = .ok ⟨none, none⟩) ∧
    ((∃ st, alsaMixer_init control known_cards mixers_result = .ok st) ↔
      ∃ known_controls, mixers_result = some known_controls ∧ control ∈ known_controls) := by
  refine ⟨?_, ?_, ?_, ?_⟩
  · rintro rfl; rfl
  · rintro known_controls rfl hmem
    simp [alsaMixer_init, hmem]
  · rintro known_controls rfl hmem
    simp [alsaMixer_init, hmem]
  · constructor
    · rintro ⟨st, hst⟩
      match mixers_result with
      | none => exact absurd hst (by simp [alsaMixer_init])
      | some known_controls =>
        refine ⟨known_controls, rfl, ?_⟩
        by_contra hmem
        simp [alsaMixer_init, hmem] at hst
    · rintro ⟨known_controls, rfl, hmem⟩
      exact ⟨⟨none, none⟩, by simp [alsaMixer_init, hmem]⟩

/-- C6: for a fixed calibration with `max_volume > min_volume` and a fixed
scale, `mixer_volume_to_volume` is monotonically non-decreasing on
inputs in `0..100`. -/
theorem mixer_volume_to_volume_mono (cal : Calibration) (a b : ℤ)
    (hcal : cal.min_volume < cal.max_volume) (ha : 0 ≤ a) (hab : a ≤ b) (hb : b ≤ 100) :
    mixer_volume_to_volume cal a ≤ mixer_volume_to_volume cal b := by
  unfold mixer_volume_to_volume
  apply truncToZero_mono
  have hd : (0 : ℝ) < cal.max_volume - cal.min_volume := sub_pos.mpr hcal
  have hab' : (a : ℝ) ≤ (b : ℝ) := by exact_mod_cast hab
  have ha' : (0 : ℝ) ≤ (a : ℝ) := by exact_mod_cast ha
  have hscale : scaleToLinear cal.volume_scale (a : ℝ) ≤ scaleToLinear cal.volume_scale (b : ℝ) := by
    cases cal.volume_scale with
    | linear => simpa [scaleToLinear] using hab'
    | cubic =>
      simp only [scaleToLinear, cubicToLinear]
      have h1 : (a : ℝ) / 100 ≤ (b : ℝ) / 100 := by linarith
      have h0a : (0 : ℝ) ≤ (a : ℝ) / 100 := by linarith
      have h0b : (0 : ℝ) ≤ (b : ℝ) / 100 := by linarith
      have h2 : (a : ℝ) / 100 * ((a : ℝ) / 100) ≤ (b : ℝ) / 100 * ((b : ℝ) / 100) :=
        mul_le_mul h1 h1 h0a h0b
      have h3 : (a : ℝ) / 100 * ((a : ℝ) / 100) * ((a : ℝ) / 100) ≤
          (b : ℝ) / 100 * ((b : ℝ) / 100) * ((b : ℝ) / 100) :=
        mul_le_mul h2 h1 h0a (mul_nonneg h0b h0b)
      linarith
    | log =>
      simp only [scaleToLinear]
      exact Real.rpow_le_rpow_of_exponent_le (by norm_num) (by linarith)
  have hnum : (scaleToLinear cal.volume_scale (a : ℝ) - cal.min_volume) * 100 ≤
      (scaleToLinear cal.volume_scale (b : ℝ) - cal.min_volume) * 100 := by linarith
  exact (div_le_div_iff_of_pos_right hd).mpr hnum

/-- C6, witness: the monotonicity theorem applied at a concrete calibration
and a concrete pair of inputs. -/
theorem mixer_volume_to_volume_mono_witness :
    mixer_volume_to_volume ⟨0, 100, .linear⟩ 10 ≤ mixer_volume_to_volume ⟨0, 100, .linear⟩ 20 :=
  mixer_volume_to_volume_mono ⟨0, 100, .linear⟩ 10 20 (by norm_num) (by norm_num)
    (by norm_num) (by norm_num)

/-- C7: at the Logarithmic scale both conversions compute exactly the spec's
literal formulas: the mixer-to-host direction is `10^(v/50)` followed by the
affine map and truncation toward zero; the host-to-mixer direction (on the
domain where `log10` is defined) is the affine map followed by
`50 * log10(v)` and truncation toward zero. -/
theorem log_scale_literal_formulas (cal : Calibration) (v p : ℤ)
    (hscale : cal.volume_scale = .log)
    (hpos : 0 < mixerIntermediate cal p) :
    mixer_volume_to_volume cal v = spec_log_toHostVolume cal v ∧
    volume_to_mixer_volume cal p = some (spec_log_toMixerVolume cal p) := by
  constructor
  · unfold mixer_volume_to_volume spec_log_toHostVolume
    rw [hscale]
    rfl
  · unfold volume_to_mixer_volume
    rw [hscale]
    show (if mixerIntermediate cal p ≤ 0 then none
      else some (truncToZero (50 * Real.logb 10 (mixerIntermediate cal p)))) = _
    rw [if_neg (not_le.mpr hpos)]
    rfl

/-- C7, witness: the literal-formula theorem applied at a concrete log-scale
calibration and concrete inputs. -/
theorem log_scale_literal_formulas_witness :
    mixer_volume_to_volume ⟨0, 100, .log⟩ 75 = spec_log_toHostVolume ⟨0, 100, .log⟩ 75 ∧
    volume_to_mixer_volume ⟨0, 100, .log⟩ 100 =
      some (spec_log_toMixerVolume ⟨0, 100, .log⟩ 100) :=
  log_scale_literal_formulas ⟨0, 100, .log⟩ 75 100 rfl (by norm_num [mixerIntermediate])

/-- C8: at the Logarithmic scale `volume_to_mixer_volume` is not total: when
the intermediate `min_volume + percent * (max_volume - min_volume) / 100` is
nonpositive it raises `log10`'s domain error (modelled as `none`), and under
the precondition that this intermediate value is positive it returns an
integer. -/
theorem volume_to_mixer_volume_log_domain (cal : Calibration) (p : ℤ)
    (hscale : cal.volume_scale = .log) :
    (mixerIntermediate cal p ≤ 0 → volume_to_mixer_volume cal p = none) ∧
    (0 < mixerIntermediate cal p → ∃ z : ℤ, volume_to_mixer_volume cal p = some z) := by
  constructor
  · intro hle
    unfold volume_to_mixer_volume
    rw [hscale]
    show (if mixerIntermediate cal p ≤ 0 then none
      else some (truncToZero (50 * Real.logb 10 (mixerIntermediate cal p)))) = none
    rw [if_pos hle]
  · intro hpos
    refine ⟨truncToZero (50 * Real.logb 10 (mixerIntermediate cal p)), ?_⟩
    unfold volume_to_mixer_volume
    rw [hscale]
    show (if mixerIntermediate cal p ≤ 0 then none
      else some (truncToZero (50 * Real.logb 10 (mixerIntermediate cal p)))) = _
    rw [if_neg (not_le.mpr hpos)]

/-- C8, witness: with `min_volume = 0` and `percent = 0` the intermediate
value is `0`, so the log-scale conversion hits the domain error. -/
theorem volume_to_mixer_volume_log_domain_witness :
    volume_to_mixer_volume ⟨0, 100, .log⟩ 0 = none :=
  (volume_to_mixer_volume_log_domain ⟨0, 100, .log⟩ 0 rfl).1
    (by norm_num [mixerIntermediate])

/-- C1, counterexample: with `min_volume = 0`, `max_volume = 100` and the
Cubic scale, the round trip at `p = 99` yields `97`, which is not within
±1 of `99`; and with the Logarithmic scale the round trip at `p = 0` does
not even return a value (`log10` domain error). -/
theorem round_trip_pm1_counterexample :
    (volume_to_mixer_volume ⟨0, 100, .cubic⟩ 99).map
      (mixer_volume_to_volume ⟨0, 100, .cubic⟩) = some 97 ∧
    ¬ |(97 : ℤ) - 99| ≤ 1 ∧
    (volume_to_mixer_volume ⟨0, 100, .log⟩ 0).map
      (mixer_volume_to_volume ⟨0, 100, .log⟩) = none := by
  have hc0 : (0 : ℝ) ≤ ((99 : ℝ) / 100) ^ ((1 : ℝ) / 3) :=
    Real.rpow_nonneg (by norm_num) _
  have hc1 : ((99 : ℝ) / 100) ^ ((1 : ℝ) / 3) < 1 :=
    Real.rpow_lt_one (by norm_num) (by norm_num) (by norm_num)
  have hc_cube : (((99 : ℝ) / 100) ^ ((1 : ℝ) / 3)) ^ (3 : ℕ) = 99 / 100 := by
    rw [← Real.rpow_natCast (((99 : ℝ) / 100) ^ ((1 : ℝ) / 3)) 3,
      ← Real.rpow_mul (by norm_num : (0 : ℝ) ≤ (99 : ℝ) / 100)]
    norm_num
  have hclow : (99 : ℝ) / 100 ≤ ((99 : ℝ) / 100) ^ ((1 : ℝ) / 3) := by
    by_contra hcon
    push_neg at hcon
    have h3 : (((99 : ℝ) / 100) ^ ((1 : ℝ) / 3)) ^ (3 : ℕ) < ((99 : ℝ) / 100) ^ (3 : ℕ) :=
      pow_lt_pow_left₀ hcon hc0 (by norm_num)
    rw [hc_cube] at h3
    norm_num at h3
  have hm : volume_to_mixer_volume ⟨0, 100, .cubic⟩ 99 = some 99 := by
    rw [volume_to_mixer_volume_cubic]
    have harg : ((0 : ℝ) + ((99 : ℤ) : ℝ) * (100 - 0) / 100) / 100 = 99 / 100 := by
      norm_num
    rw [harg]
    have hrc : linearToCubic ((99 : ℝ) / 100) = ((99 : ℝ) / 100) ^ ((1 : ℝ) / 3) := by
      unfold linearToCubic realCbrt
      rw [if_pos (by norm_num : (0 : ℝ) ≤ (99 : ℝ) / 100)]
    rw [hrc]
    congr 1
    unfold truncToZero
    rw [if_pos (by positivity)]
    rw [Int.floor_eq_iff]
    constructor
    · push_cast
      linarith
    · push_cast
      linarith
  have hv : mixer_volume_to_volume ⟨0, 100, .cubic⟩ 99 = 97 := by
    rw [mixer_volume_to_volume_cubic]
    have h1 : (cubicToLinear (((99 : ℤ) : ℝ) / 100) * 100 - 0) * 100 / (100 - 0) =
        970299 / 10000 := by
      unfold cubicToLinear
      norm_num
    rw [h1]
    unfold truncToZero
    rw [if_pos (by norm_num)]
    norm_num [Int.floor_eq_iff]
  have hlog : volume_to_mixer_volume ⟨0, 100, .log⟩ 0 = none := by
    rw [volume_to_mixer_volume_log_def]
    rw [if_pos (by norm_num)]
  refine ⟨?_, by decide, ?_⟩
  · rw [hm]
    show some (mixer_volume_to_volume ⟨0, 100, .cubic⟩ 99) = some 97
    rw [hv]
  · rw [hlog]
    rfl

/-- C1, amended: with `min_volume = 0`, `max_volume = 100` and the Linear
scale, the round trip `mixer_volume_to_volume ∘ volume_to_mixer_volume`
returns `p` exactly (in particular within ±1) for every `p` in `0..100`;
the ±1 bound does not extend to the Cubic and Logarithmic scales. -/
theorem round_trip_linear_exact (p : ℤ) (hp0 : 0 ≤ p) (hp1 : p ≤ 100) :
    (volume_to_mixer_volume ⟨0, 100, .linear⟩ p).map
      (mixer_volume_to_volume ⟨0, 100, .linear⟩) = some p := by
  have h2 : volume_to_mixer_volume ⟨0, 100, .linear⟩ p = some p := by
    rw [volume_to_mixer_volume_linear_def]
    have harg : (0 : ℝ) + (p : ℝ) * (100 - 0) / 100 = (p : ℝ) := by
      field_simp
    rw [harg, truncToZero_intCast]
  rw [h2]
  show some (mixer_volume_to_volume ⟨0, 100, .linear⟩ p) = some p
  congr 1
  have hlin : mixer_volume_to_volume ⟨0, 100, .linear⟩ p =
      truncToZero (((p : ℝ) - 0) * 100 / (100 - 0)) := rfl
  rw [hlin]
  have harg : ((p : ℝ) - 0) * 100 / (100 - 0) = (p : ℝ) := by
    field_simp
  rw [harg, truncToZero_intCast]

/-- C1, witness: the amended round-trip theorem applied at `p = 42`. -/
theorem round_trip_linear_exact_witness :
    (volume_to_mixer_volume ⟨0, 100, .linear⟩ 42).map
      (mixer_volume_to_volume ⟨0, 100, .linear⟩) = some 42 :=
  round_trip_linear_exact 42 (by norm_num) (by norm_num)

/-- C10: on a successful read of zero channels, `get_mute` returns `True`
(the all-channels-muted condition holds vacuously), while `get_volume`
returns `None` for zero channels. -/
theorem empty_channels_asymmetry (cal : Calibration) :
    get_mute (some []) = some true ∧ get_volume cal (some []) = none :=
  ⟨by simp [get_mute], rfl⟩

end AlsaMixer
